import Mathlib

/-!
# razorpay-mcp-server: HTTP entrypoint and HTTP transport adapter

A shallow embedding of

* `cmd/razorpay-mcp-server/http.go`  (`httpCmd.Run`, `runHTTPServer`),
* `cmd/razorpay-mcp-server/main.go`  (`init`: flag and environment bindings),
* `pkg/mcpgo/http.go`                (`NewHTTPServer`, `Start`, `Shutdown`, `ServeHTTP`).

Calls into collaborators whose code is outside these files (the streaming
HTTP server, `net/http`, the tool server constructor, the logger factory) are
taken as parameters (`Ext`) and every such call is recorded as an `Event`, so
that "X is never called" is a statement about the recorded calls.
-/

namespace Razorpay

/-! ## Process environment -/

/-- The process environment: a variable is either absent or present with a
value (which may be the empty string). -/
abbrev Environ := String → Option String

/-- Go `os.Getenv`: the value of the variable, the empty string when the
variable is not present. -/
def Getenv (env : Environ) (key : String) : String :=
  (env key).getD ""

/-! ## `httpCmd.Run`: effective arguments (http.go lines 34-63) -/

/-- The typed getters of the configuration registry that `httpCmd.Run` reads
(`viper.GetString`, `viper.GetStringSlice`, `viper.GetBool`). -/
structure Viper where
  GetString : String → String
  GetStringSlice : String → List String
  GetBool : String → Bool

/-- The arguments `httpCmd.Run` hands to `runHTTPServer`. -/
structure HTTPArgs where
  address : String
  endpointPath : String
  enabledToolsets : List String
  readOnly : Bool
  stateless : Bool
deriving DecidableEq, Repr

/-- Lines 40-48 of http.go: the configured address, `":8080"` when that is
empty, and then `":" + port` when `os.Getenv("PORT")` is not empty. -/
def effectiveAddress (v : Viper) (env : Environ) : String :=
  let address := v.GetString "address"
  let address := if address = "" then ":8080" else address
  let port := Getenv env "PORT"
  if port ≠ "" then ":" ++ port else address

/-- Lines 51-54 of http.go. -/
def effectiveEndpointPath (v : Viper) : String :=
  let endpointPath := v.GetString "endpoint_path"
  if endpointPath = "" then "/mcp" else endpointPath

/-- Lines 40-63 of http.go: everything passed on line 65. -/
def httpArgs (v : Viper) (env : Environ) : HTTPArgs :=
  { address := effectiveAddress v env
    endpointPath := effectiveEndpointPath v
    enabledToolsets := v.GetStringSlice "toolsets"
    readOnly := v.GetBool "read_only"
    stateless := v.GetBool "stateless" }

/-- A registry in which only `address` and `endpoint_path` are configured. -/
def viperOf (address endpointPath : String) : Viper :=
  { GetString := fun k =>
      if k = "address" then address else if k = "endpoint_path" then endpointPath else ""
    GetStringSlice := fun _ => []
    GetBool := fun _ => false }

/-- An environment holding at most the variable `PORT`. -/
def envPort (port : Option String) : Environ :=
  fun k => if k = "PORT" then port else none

/-! ## Errors and contexts -/

/-- A non-nil Go `error` value: either an opaque message, or an error built by
`fmt.Errorf(context + "%w", inner)`. A Go `error` is `Option GoError`, `none`
being `nil`. -/
inductive GoError where
  | msg (text : String)
  | wrap (context : String) (inner : GoError)
deriving DecidableEq, Repr

/-- The `Error()` string. -/
def GoError.Error : GoError → String
  | .msg text => text
  | .wrap context inner => context ++ inner.Error

/-- Go `errors.Unwrap`. -/
def GoError.Unwrap : GoError → Option GoError
  | .msg _ => none
  | .wrap _ inner => some inner

/-- What `ctx.Err()` can report once a context is done. -/
inductive CtxErr where
  | Canceled
  | DeadlineExceeded
deriving DecidableEq, Repr

/-- How a context was derived. Durations are `time.Duration` values, that is
integer counts of the unit of `time.Duration`. -/
inductive CtxOrigin where
  | Background
  | NotifyContext (parent : CtxOrigin)
  | WithTimeout (parent : CtxOrigin) (timeout : Int)
deriving DecidableEq, Repr

/-- A `context.Context` as a callee sees it: its derivation and the value of
`ctx.Err()` (`none` while the context is live). -/
structure Context where
  origin : CtxOrigin
  err : Option CtxErr
deriving DecidableEq, Repr

/-! ## `pkg/mcpgo/http.go` -/

/-- Handle of a protocol-server instance (`*server.MCPServer`, external). -/
structure MCPServer where
  id : Nat
deriving DecidableEq, Repr

/-- Modelled from the spec: the "expected concrete implementation" of the
server handle, `*Mark3labsImpl`, whose declaration is outside these files. Only
`GetMCPServer` is used by `NewHTTPServer`. -/
structure Mark3labsImpl where
  mcpServer : MCPServer
deriving DecidableEq, Repr

/-- The underlying protocol-server instance of the implementation. -/
def Mark3labsImpl.GetMCPServer (s : Mark3labsImpl) : MCPServer := s.mcpServer

/-- A value of the interface type `Server`, by dynamic type: a (non-nil)
`*Mark3labsImpl`, or a value of any other dynamic type (`typeName` is what
`%T` prints for it, `<nil>` for the nil interface). -/
inductive Server where
  | mark3labs (impl : Mark3labsImpl)
  | other (typeName : String)
deriving DecidableEq, Repr

/-- HTTPServerOptions configures HTTP transport. -/
structure HTTPServerOptions where
  Address : String
  EndpointPath : String
  Stateless : Bool
deriving DecidableEq, Repr

/-- The options of the external streaming server that this code builds. -/
inductive StreamableHTTPOption where
  | WithEndpointPath (endpointPath : String)
  | WithStateLess (stateLess : Bool)
deriving DecidableEq, Repr

/-- The value `server.NewStreamableHTTPServer(mcp, opts...)` (external):
identified by the arguments it was built from. -/
structure StreamableHTTPServer where
  mcp : MCPServer
  opts : List StreamableHTTPOption
deriving DecidableEq, Repr

/-- Handle of a `*http.Server` (external). -/
structure HttpServer where
  id : Nat
deriving DecidableEq, Repr

/-- HTTPTransportServer implements HTTP transport for MCP. Both server fields
are pointers, `none` being `nil`. -/
structure HTTPTransportServer where
  mcpHTTPServer : Option StreamableHTTPServer
  httpServer : Option HttpServer
  address : String
deriving DecidableEq, Repr

/-- An HTTP request, as far as this code looks at it (it does not). -/
structure Request where
  id : Nat
deriving DecidableEq, Repr

/-- The SDK client built by `rzpsdk.NewClient(key, secret)` and `SetUserAgent`
(external); this code only passes it on. -/
structure Client where
  key : String
  secret : String
  userAgent : String
deriving DecidableEq, Repr

/-- Modelled from the spec: the tool server handle returned by
`razorpay.NewServer` (declared outside these files); `GetMCPServer` "returns
the underlying protocol-server instance". -/
structure RzpServer where
  mcpServer : Server
deriving DecidableEq, Repr

/-- The underlying protocol-server instance of the tool server. -/
def RzpServer.GetMCPServer (s : RzpServer) : Server := s.mcpServer

/-- A call made to a collaborator, or an own call worth recording. -/
inductive Event where
  /-- Call of `razorpay.NewServer(log, client, version, enabledToolsets, readOnly)`. -/
  | NewServer (client : Client) (version : String) (toolsets : List String) (readOnly : Bool)
  /-- Call of `mcpgo.NewHTTPServer(srv.GetMCPServer(), opts)`. -/
  | NewHTTPServer (opts : HTTPServerOptions)
  /-- Call of `server.NewStreamableHTTPServer(mcp, opts...)`. -/
  | NewStreamableHTTPServer (mcp : MCPServer) (opts : List StreamableHTTPOption)
  /-- The `go` statement whose goroutine runs `errC <- httpSrv.Start()`. -/
  | GoStart
  /-- Call of `(*StreamableHTTPServer).Start(addr)`: binds `addr` and serves. -/
  | StreamStart (recv : Option StreamableHTTPServer) (addr : String)
  /-- Call of `(*StreamableHTTPServer).ServeHTTP(w, r)`. -/
  | StreamServeHTTP (recv : Option StreamableHTTPServer) (r : Request)
  /-- Call of `(*StreamableHTTPServer).Shutdown(ctx)`, the stop call of the streaming server. -/
  | StreamShutdown (recv : Option StreamableHTTPServer) (ctx : Context)
  /-- Call of `(*http.Server).Shutdown(ctx)`. -/
  | HttpShutdown (recv : HttpServer) (ctx : Context)
  /-- Call of `httpSrv.Shutdown(shutdownCtx)` by `runHTTPServer`. -/
  | Shutdown (ctx : Context)
  /-- The line written to standard error. -/
  | Stderr (text : String)
  | LogInfo (text : String)
  | LogError (text : String)
deriving DecidableEq, Repr

/-- Results of the calls whose code is outside these files. -/
structure Ext where
  /-- The error of `log.New(logPath)`, if any. -/
  logNew : String → Option GoError
  /-- The result of `razorpay.NewServer(log, client, version, enabledToolsets, readOnly)`. -/
  NewServer : Client → String → List String → Bool → Except GoError RzpServer
  /-- What `(*StreamableHTTPServer).Start(addr)` returns when it returns. -/
  streamStart : Option StreamableHTTPServer → String → Option GoError
  /-- What `(*http.Server).Shutdown(ctx)` returns. -/
  httpShutdown : HttpServer → Context → Option GoError

/-- The outcome of a method call on an adapter: the value returned, the adapter
after the call, and the calls made to collaborators, in order. -/
structure Call (α : Type) where
  result : α
  self : HTTPTransportServer
  events : List Event

/-- NewHTTPServer creates HTTP transport server. The Go pair `(adapter, err)`
is `.ok adapter` for `(adapter, nil)` and `.error err` for `(nil, err)`. -/
def NewHTTPServer (mcpServer : Server) (opts : HTTPServerOptions) :
    Except GoError HTTPTransportServer × List Event :=
  match mcpServer with
  | .other typeName =>
    (.error (.msg ("invalid server implementation: expected *Mark3labsImpl, got " ++ typeName)),
      [])
  | .mark3labs sImpl =>
    let serverOpts : List StreamableHTTPOption := []
    let serverOpts :=
      if opts.EndpointPath ≠ "" then serverOpts ++ [.WithEndpointPath opts.EndpointPath]
      else serverOpts
    let serverOpts :=
      if opts.Stateless then serverOpts ++ [.WithStateLess true] else serverOpts
    let httpServer : StreamableHTTPServer := { mcp := sImpl.GetMCPServer, opts := serverOpts }
    (.ok { mcpHTTPServer := some httpServer, httpServer := none, address := opts.Address },
      [.NewStreamableHTTPServer sImpl.GetMCPServer serverOpts])

/-- Start begins HTTP server. -/
def HTTPTransportServer.Start (ext : Ext) (h : HTTPTransportServer) : Call (Option GoError) :=
  { result := ext.streamStart h.mcpHTTPServer h.address
    self := h
    events := [.StreamStart h.mcpHTTPServer h.address] }

/-- Shutdown gracefully stops the server. -/
def HTTPTransportServer.Shutdown (ext : Ext) (h : HTTPTransportServer) (ctx : Context) :
    Call (Option GoError) :=
  match h.httpServer with
  | some srv => { result := ext.httpShutdown srv ctx, self := h, events := [.HttpShutdown srv ctx] }
  | none => { result := none, self := h, events := [] }

/-- ServeHTTP implements http.Handler interface. -/
def HTTPTransportServer.ServeHTTP (h : HTTPTransportServer) (r : Request) : Call Unit :=
  { result := (), self := h, events := [.StreamServeHTTP h.mcpHTTPServer r] }

/-- A method call on an adapter. -/
inductive Op where
  | Start
  | Shutdown (ctx : Context)
  | ServeHTTP (r : Request)
deriving DecidableEq, Repr

/-- One method call: the adapter afterwards and the calls it made. -/
def applyOp (ext : Ext) (h : HTTPTransportServer) : Op → HTTPTransportServer × List Event
  | .Start => ((h.Start ext).self, (h.Start ext).events)
  | .Shutdown ctx => ((h.Shutdown ext ctx).self, (h.Shutdown ext ctx).events)
  | .ServeHTTP r => ((h.ServeHTTP r).self, (h.ServeHTTP r).events)

/-- A sequence of method calls, one after the other. -/
def applyOps (ext : Ext) (h : HTTPTransportServer) : List Op → HTTPTransportServer × List Event
  | [] => (h, [])
  | op :: ops =>
    let (h1, es1) := applyOp ext h op
    let (h2, es2) := applyOps ext h1 ops
    (h2, es1 ++ es2)

/-- Whether an event is a stop call on a server (streaming or `net/http`). -/
def Event.isStop : Event → Bool
  | .StreamShutdown _ _ => true
  | .HttpShutdown _ _ => true
  | _ => false

/-! ## `runHTTPServer` and `httpCmd.Run` (http.go) -/

/-- The package variable `version` of main.go. -/
def version : String := "version"

/-- Which case of the `select` on lines 129-141 proceeds. -/
inductive Fired where
  /-- `<-ctx.Done()`: the interrupt or SIGTERM signal. -/
  | signal
  /-- `err := <-errC`: the result of `httpSrv.Start()`. -/
  | startResult
deriving DecidableEq, Repr

/-- What the run time decides: the case of the `select` that proceeds, and
whether the deadline of the shutdown context has already passed when
`Shutdown` looks at it. -/
structure Schedule where
  fired : Fired
  shutdownExpired : Bool
deriving DecidableEq, Repr

/-- The context built on line 132: `context.WithTimeout(context.Background(), 30)`. -/
def shutdownCtx (expired : Bool) : Context :=
  { origin := .WithTimeout .Background 30
    err := if expired then some .DeadlineExceeded else none }

/-- The context built on lines 82-86 and waited on in the `select`. -/
def signalCtxOrigin : CtxOrigin := .NotifyContext .Background

/-- Lines 73-142 of http.go. Returns the error and the calls made, in order
(those of the goroutine are listed once its result has been received). -/
def runHTTPServer (ext : Ext) (client : Client) (address endpointPath : String)
    (enabledToolsets : List String) (readOnly stateless : Bool) (sched : Schedule) :
    Option GoError × List Event :=
  let ev0 : List Event := [.NewServer client version enabledToolsets readOnly]
  match ext.NewServer client version enabledToolsets readOnly with
  | .error err => (some (.wrap "failed to create server: " err), ev0)
  | .ok srv =>
    let opts : HTTPServerOptions :=
      { Address := address, EndpointPath := endpointPath, Stateless := stateless }
    let created := NewHTTPServer srv.GetMCPServer opts
    let ev1 := ev0 ++ [.NewHTTPServer opts] ++ created.2
    match created.1 with
    | .error err => (some (.wrap "failed to create HTTP server: " err), ev1)
    | .ok httpSrv =>
      let ev2 := ev1 ++
        [.GoStart, .Stderr ("Razorpay MCP Server running on " ++ address ++ endpointPath ++ "\n")]
      match sched.fired with
      | .signal =>
        let ctx := shutdownCtx sched.shutdownExpired
        let down := httpSrv.Shutdown ext ctx
        (down.result,
          ev2 ++ [.LogInfo "shutting down HTTP server...", .Shutdown ctx] ++ down.events)
      | .startResult =>
        let started := httpSrv.Start ext
        let ev3 := ev2 ++ [.LogInfo "starting HTTP server"] ++ started.events
        match started.result with
        | some err => (some err, ev3 ++ [.LogError "HTTP server error"])
        | none => (none, ev3)

/-- How `httpCmd.Run` ends: `stdlog.Fatalf` (print, then `os.Exit(1)`), or a
normal return. -/
inductive RunEnd where
  | Fatalf (text : String)
  | returned
deriving DecidableEq, Repr

/-- The exit status of the process: 1 after `Fatalf`, 0 after a normal return
of the command. -/
def RunEnd.exitCode : RunEnd → Nat
  | .Fatalf _ => 1
  | .returned => 0

/-- The client of lines 34-38. -/
def httpClient (v : Viper) : Client :=
  { key := v.GetString "key"
    secret := v.GetString "secret"
    userAgent := "razorpay-mcp/" ++ version ++ "/http" }

/-- Lines 26-70 of http.go: the `Run` function of `httpCmd`. -/
def httpCmd.Run (ext : Ext) (v : Viper) (env : Environ) (sched : Schedule) :
    RunEnd × List Event :=
  match ext.logNew (v.GetString "log_file") with
  | some err => (.Fatalf ("create logger: " ++ err.Error), [])
  | none =>
    let a := httpArgs v env
    let r := runHTTPServer ext (httpClient v) a.address a.endpointPath a.enabledToolsets
      a.readOnly a.stateless sched
    match r.1 with
    | some err =>
      (.Fatalf ("failed to run HTTP server: " ++ err.Error),
        r.2 ++ [.LogError "error running HTTP server"])
    | none => (.returned, r.2)

/-- Whether the event is a call of `httpSrv.Shutdown` by `runHTTPServer`. -/
def Event.isShutdown : Event → Bool
  | .Shutdown _ => true
  | _ => false

/-- How many times `runHTTPServer` called `httpSrv.Shutdown`. -/
def shutdownCalls (es : List Event) : Nat :=
  (es.filter Event.isShutdown).length

/-- Whether `Start` was launched or called: the `go` statement or the
streaming server's `Start`. -/
def Event.isStart : Event → Bool
  | .GoStart => true
  | .StreamStart _ _ => true
  | _ => false

/-- Whether the event is the call of `mcpgo.NewHTTPServer`, or the construction
of the streaming server inside it. -/
def Event.isNewHTTPServer : Event → Bool
  | .NewHTTPServer _ => true
  | .NewStreamableHTTPServer _ _ => true
  | _ => false

/-! ## Configuration bindings (main.go `init`) and their resolution

`init` registers the flags, binds each to a key, binds environment variable
names to keys and switches automatic environment lookup on. The lookup itself
is done by the configuration library (spf13/viper, `Viper.find`), which is
outside these files; `find` below follows the order of that function for the
sources this program uses (no `Set` override, no key/value store, no
`SetDefault`, no environment prefix or key replacer, `AllowEmptyEnv` off). -/

/-- A raw configuration value, before the typed getters cast it. -/
inductive Value where
  | str (s : String)
  | strs (l : List String)
  | bool (b : Bool)
deriving DecidableEq, Repr

/-- A flag registered on `rootCmd.PersistentFlags()` and bound to a key by
`viper.BindPFlag`: the flag's name and its built-in default. -/
structure BoundFlag where
  name : String
  defValue : Value
deriving DecidableEq, Repr

/-- What `init` leaves in the configuration registry. -/
structure Registry where
  /-- Key to bound flag (`BindPFlag`). -/
  pflags : List (String × BoundFlag)
  /-- Key to environment variable names, in the order given (`BindEnv`). -/
  env : List (String × List String)
  /-- Whether `AutomaticEnv()` was called. -/
  automaticEnvApplied : Bool
deriving DecidableEq, Repr

/-- Lines 41-67 of main.go. -/
def initRegistry : Registry :=
  { pflags :=
      [ ("key", ⟨"key", .str ""⟩),
        ("secret", ⟨"secret", .str ""⟩),
        ("log_file", ⟨"log-file", .str ""⟩),
        ("toolsets", ⟨"toolsets", .strs []⟩),
        ("read_only", ⟨"read-only", .bool false⟩),
        ("address", ⟨"address", .str ":8080"⟩),
        ("endpoint_path", ⟨"endpoint-path", .str "/mcp"⟩),
        ("stateless", ⟨"stateless", .bool false⟩) ]
    env :=
      [ ("key", ["RAZORPAY_KEY_ID", "RAZORPAY_API_KEY"]),
        ("secret", ["RAZORPAY_KEY_SECRET", "RAZORPAY_API_SECRET"]),
        ("address", ["ADDRESS"]),
        ("toolsets", ["TOOLSETS"]),
        ("read_only", ["READ_ONLY"]),
        ("endpoint_path", ["ENDPOINT_PATH"]) ]
    automaticEnvApplied := true }

/-- The three places a value can come from at run time. -/
structure Sources where
  /-- The flags given on the command line (pflag `Changed`), by flag name. -/
  flags : String → Option Value
  /-- The process environment. -/
  env : Environ
  /-- The config file, by key; nothing when no file was read. -/
  file : String → Option Value

/-- Upper-casing of a key (`strings.ToUpper`; the keys here are ASCII). -/
def ToUpper (s : String) : String := ⟨s.data.map Char.toUpper⟩

/-- The library's `getEnv`: the variable's value if it is present and not
empty (an empty variable counts as unset). -/
def getEnv (env : Environ) (name : String) : Option String :=
  match env name with
  | some val => if val ≠ "" then some val else none
  | none => none

/-- The first of the names that `getEnv` finds. -/
def firstEnv (env : Environ) : List String → Option String
  | [] => none
  | name :: names =>
    match getEnv env name with
    | some val => some val
    | none => firstEnv env names

/-- The library's lookup of a key: a changed flag, then (automatic
environment lookup being on) the variable named by the upper-cased key, then
the bound variables in order, then the config file, then the default of the
bound flag. -/
def find (reg : Registry) (src : Sources) (key : String) : Option Value :=
  let flag := reg.pflags.lookup key
  match flag.bind fun f => src.flags f.name with
  | some v => some v
  | none =>
    match (if reg.automaticEnvApplied then getEnv src.env (ToUpper key) else none) with
    | some val => some (.str val)
    | none =>
      match firstEnv src.env ((reg.env.lookup key).getD []) with
      | some val => some (.str val)
      | none =>
        match src.file key with
        | some v => some v
        | none => flag.map fun f => f.defValue

/-- One row of the specification's table of options (its sections 4.1 and 6):
key, flag, environment aliases in order, default. -/
structure SpecRow where
  key : String
  flag : String
  envs : List String
  defValue : Value
deriving DecidableEq, Repr

/-- The six keys of the specification that have environment aliases. -/
def specRows : List SpecRow :=
  [ ⟨"key", "key", ["RAZORPAY_KEY_ID", "RAZORPAY_API_KEY"], .str ""⟩,
    ⟨"secret", "secret", ["RAZORPAY_KEY_SECRET", "RAZORPAY_API_SECRET"], .str ""⟩,
    ⟨"address", "address", ["ADDRESS"], .str ":8080"⟩,
    ⟨"toolsets", "toolsets", ["TOOLSETS"], .strs []⟩,
    ⟨"read_only", "read-only", ["READ_ONLY"], .bool false⟩,
    ⟨"endpoint_path", "endpoint-path", ["ENDPOINT_PATH"], .str "/mcp"⟩ ]

/-- The resolution order in the specification's words: flag, then the
environment aliases in order (a variable counting as set when it holds a
non-empty value), then file, then default. -/
def specResolve (src : Sources) (row : SpecRow) : Value :=
  match src.flags row.flag with
  | some v => v
  | none =>
    match firstEnv src.env row.envs with
    | some val => .str val
    | none =>
      match src.file row.key with
      | some v => v
      | none => row.defValue

/-- The row with the variable named by the upper-cased key put in front of the
aliases. -/
def SpecRow.withAutomaticEnv (row : SpecRow) : SpecRow :=
  { row with envs := ToUpper row.key :: row.envs }

/-- Sources in which only the environment variable `KEY` and the file entry
`key` are given. -/
def srcKeyEnv : Sources :=
  { flags := fun _ => none
    env := fun name => if name = "KEY" then some "from-env" else none
    file := fun k => if k = "key" then some (.str "from-file") else none }

/-- Collaborators used to run the definitions on concrete inputs: the tool
server is built over a `*Mark3labsImpl` unless the toolset `bad` is enabled,
the streaming server fails to bind the address `:bad`, and a `net/http` server
reports what its context reports. -/
def extSample : Ext :=
  { logNew := fun _ => none
    NewServer := fun _ _ toolsets _ =>
      if "bad" ∈ toolsets then .error (.msg "unknown toolset")
      else if "foreign" ∈ toolsets then .ok { mcpServer := .other "*other.Impl" }
      else .ok { mcpServer := .mark3labs { mcpServer := { id := 1 } } }
    streamStart := fun _ addr => if addr = ":bad" then some (.msg "listen failed") else none
    httpShutdown := fun _ ctx =>
      match ctx.err with
      | some _ => some (.msg "context done")
      | none => none }

/-- A client for concrete runs. -/
def clientSample : Client := { key := "k", secret := "s", userAgent := "razorpay-mcp/version/http" }

end Razorpay

namespace Razorpay

/-! ## `httpCmd.Run`: address and endpoint path -/

/-- C1 (as stated, refuted): a `PORT` variable that is present with the empty
value does not replace the configured address `:3000` by `":" ++ ""`. -/
theorem C1_counterexample_empty_port :
    ¬ ∀ (v : Viper) (env : Environ) (p : String), env "PORT" = some p →
        (httpArgs v env).address = ":" ++ p := by
  intro h
  have h1 := h (viperOf ":3000" "") (envPort (some "")) "" (by decide)
  revert h1
  decide

/-- C1 (amended): when `PORT` is present with a non-empty value `p` the address
handed to `runHTTPServer` is `":" ++ p` whatever the configured address is;
when `PORT` is present but empty the configured address (or `":8080"` when that
is empty) is kept. -/
theorem C1_port_overrides_address (v : Viper) (env : Environ) (p : String)
    (hport : env "PORT" = some p) :
    (p ≠ "" → (httpArgs v env).address = ":" ++ p) ∧
    (p = "" → (httpArgs v env).address =
      if v.GetString "address" = "" then ":8080" else v.GetString "address") := by
  constructor
  · intro hp
    simp [httpArgs, effectiveAddress, Getenv, hport, hp]
  · intro hp
    simp [httpArgs, effectiveAddress, Getenv, hport, hp]

/-- With `PORT=9090` and no address configured the effective address is `:9090`. -/
theorem C1_port_overrides_address_witness :
    (httpArgs (viperOf "" "") (envPort (some "9090"))).address = ":9090" :=
  (C1_port_overrides_address (viperOf "" "") (envPort (some "9090")) "9090" (by decide)).1
    (by decide)

/-- C2: an empty resolved endpoint path becomes `/mcp` and a non-empty one is
kept; with `PORT` unset an empty resolved address becomes `:8080` and a
non-empty one is kept. -/
theorem C2_default_filling (v : Viper) (env : Environ) :
    (v.GetString "endpoint_path" = "" → (httpArgs v env).endpointPath = "/mcp") ∧
    (v.GetString "endpoint_path" ≠ "" →
      (httpArgs v env).endpointPath = v.GetString "endpoint_path") ∧
    (env "PORT" = none → v.GetString "address" = "" →
      (httpArgs v env).address = ":8080") ∧
    (env "PORT" = none → v.GetString "address" ≠ "" →
      (httpArgs v env).address = v.GetString "address") := by
  refine ⟨?_, ?_, ?_, ?_⟩
  · intro h
    simp [httpArgs, effectiveEndpointPath, h]
  · intro h
    simp [httpArgs, effectiveEndpointPath, h]
  · intro hp h
    simp [httpArgs, effectiveAddress, Getenv, hp, h]
  · intro hp h
    simp [httpArgs, effectiveAddress, Getenv, hp, h]

/-- With nothing configured and `PORT` absent the defaults are `/mcp` and
`:8080`; configured values `/rpc` and `:3000` are kept. -/
theorem C2_default_filling_witness :
    (httpArgs (viperOf "" "") (envPort none)).endpointPath = "/mcp" ∧
    (httpArgs (viperOf ":3000" "/rpc") (envPort none)).endpointPath = "/rpc" ∧
    (httpArgs (viperOf "" "") (envPort none)).address = ":8080" ∧
    (httpArgs (viperOf ":3000" "/rpc") (envPort none)).address = ":3000" :=
  ⟨(C2_default_filling (viperOf "" "") (envPort none)).1 (by decide),
   (C2_default_filling (viperOf ":3000" "/rpc") (envPort none)).2.1 (by decide),
   (C2_default_filling (viperOf "" "") (envPort none)).2.2.1 (by decide) (by decide),
   (C2_default_filling (viperOf ":3000" "/rpc") (envPort none)).2.2.2 (by decide) (by decide)⟩

/-! ## The HTTP transport adapter -/

/-- No method of the adapter assigns to a field of its receiver. -/
theorem applyOp_self (ext : Ext) (h : HTTPTransportServer) (op : Op) :
    (applyOp ext h op).1 = h := by
  cases op with
  | Start => rfl
  | ServeHTTP r => rfl
  | Shutdown ctx =>
    simp only [applyOp, HTTPTransportServer.Shutdown]
    cases h.httpServer <;> rfl

/-- A sequence of method calls leaves the adapter as it was. -/
theorem applyOps_self (ext : Ext) (h : HTTPTransportServer) (ops : List Op) :
    (applyOps ext h ops).1 = h := by
  induction ops generalizing h with
  | nil => rfl
  | cons op ops ih =>
    simp only [applyOps]
    rw [ih, applyOp_self]

/-- On an adapter without a `net/http` server no method makes a stop call. -/
theorem applyOp_no_stop (ext : Ext) (h : HTTPTransportServer) (op : Op)
    (hnil : h.httpServer = none) : ∀ e ∈ (applyOp ext h op).2, e.isStop = false := by
  cases op with
  | Start => simp [applyOp, HTTPTransportServer.Start, Event.isStop]
  | ServeHTTP r => simp [applyOp, HTTPTransportServer.ServeHTTP, Event.isStop]
  | Shutdown ctx => simp [applyOp, HTTPTransportServer.Shutdown, hnil]

/-- The same for a sequence of method calls. -/
theorem applyOps_no_stop (ext : Ext) (h : HTTPTransportServer) (ops : List Op)
    (hnil : h.httpServer = none) : ∀ e ∈ (applyOps ext h ops).2, e.isStop = false := by
  induction ops generalizing h with
  | nil => simp [applyOps]
  | cons op ops ih =>
    intro e he
    simp only [applyOps, List.mem_append] at he
    rcases he with he | he
    · exact applyOp_no_stop ext h op hnil e he
    · exact ih (applyOp ext h op).1 (by rw [applyOp_self]; exact hnil) e he

/-- What `NewHTTPServer` returns for a `*Mark3labsImpl`. -/
theorem NewHTTPServer_mark3labs (impl : Mark3labsImpl) (opts : HTTPServerOptions) :
    NewHTTPServer (.mark3labs impl) opts =
      (.ok { mcpHTTPServer := some
                { mcp := impl.GetMCPServer
                  opts := (if opts.EndpointPath ≠ "" then [.WithEndpointPath opts.EndpointPath]
                      else []) ++ (if opts.Stateless then [.WithStateLess true] else []) }
             httpServer := none
             address := opts.Address },
        [.NewStreamableHTTPServer impl.GetMCPServer
          ((if opts.EndpointPath ≠ "" then [.WithEndpointPath opts.EndpointPath] else []) ++
            (if opts.Stateless then [.WithStateLess true] else []))]) := by
  unfold NewHTTPServer
  by_cases hp : opts.EndpointPath = "" <;> by_cases hs : opts.Stateless = true <;> simp [hp, hs]

/-- An adapter returned by `NewHTTPServer` has no `net/http` server. -/
theorem NewHTTPServer_httpServer (mcpServer : Server) (opts : HTTPServerOptions)
    (h : HTTPTransportServer) (hnew : (NewHTTPServer mcpServer opts).1 = .ok h) :
    h.httpServer = none := by
  cases mcpServer with
  | other typeName => simp [NewHTTPServer] at hnew
  | mark3labs impl =>
    rw [NewHTTPServer_mark3labs] at hnew
    simp only [Except.ok.injEq] at hnew
    rw [← hnew]

/-- C4: `NewHTTPServer` returns an error (and with it no adapter) exactly when
the server value is not a `*Mark3labsImpl`, for every options value; in that
case it makes no call at all: no streaming server is constructed and no
listener is started. -/
theorem C4_error_iff_not_mark3labs (mcpServer : Server) (opts : HTTPServerOptions) :
    ((∃ err, (NewHTTPServer mcpServer opts).1 = .error err) ↔
      ∀ impl, mcpServer ≠ .mark3labs impl) ∧
    ((∀ impl, mcpServer ≠ .mark3labs impl) → (NewHTTPServer mcpServer opts).2 = []) := by
  cases mcpServer with
  | other typeName => simp [NewHTTPServer]
  | mark3labs impl =>
    rw [NewHTTPServer_mark3labs]
    simp

/-- A server of a foreign type gives the error and no call, whatever the
options. -/
theorem C4_error_iff_not_mark3labs_witness :
    NewHTTPServer (.other "*other.Impl") ⟨":8080", "/mcp", true⟩ =
      (.error (.msg "invalid server implementation: expected *Mark3labsImpl, got *other.Impl"),
        []) ∧
    (NewHTTPServer (.other "*other.Impl") ⟨":8080", "/mcp", true⟩).2 = [] :=
  ⟨rfl,
   (C4_error_iff_not_mark3labs (.other "*other.Impl") ⟨":8080", "/mcp", true⟩).2
     (by intro impl; exact Server.noConfusion)⟩

/-- C5: on an adapter whose `httpServer` is nil, `Shutdown` returns nil for
every context, makes no call and leaves the adapter unchanged. -/
theorem C5_shutdown_nil_httpServer (ext : Ext) (h : HTTPTransportServer) (ctx : Context)
    (hnil : h.httpServer = none) :
    (h.Shutdown ext ctx).result = none ∧
    (h.Shutdown ext ctx).self = h ∧
    (h.Shutdown ext ctx).events = [] := by
  simp [HTTPTransportServer.Shutdown, hnil]

/-- An adapter with both pointers nil, shut down under a context that is
already past its deadline. -/
theorem C5_shutdown_nil_httpServer_witness :
    ((⟨none, none, ":8080"⟩ : HTTPTransportServer).Shutdown extSample
        ⟨.WithTimeout .Background 30, some .DeadlineExceeded⟩).result = none ∧
    ((⟨none, none, ":8080"⟩ : HTTPTransportServer).Shutdown extSample
        ⟨.WithTimeout .Background 30, some .DeadlineExceeded⟩).self = ⟨none, none, ":8080"⟩ ∧
    ((⟨none, none, ":8080"⟩ : HTTPTransportServer).Shutdown extSample
        ⟨.WithTimeout .Background 30, some .DeadlineExceeded⟩).events = [] :=
  C5_shutdown_nil_httpServer extSample ⟨none, none, ":8080"⟩
    ⟨.WithTimeout .Background 30, some .DeadlineExceeded⟩ rfl

/-- C6: an adapter returned by `NewHTTPServer` has `httpServer` nil; it is the
same adapter, still with `httpServer` nil, after any sequence of `Start`,
`Shutdown` and `ServeHTTP` calls; none of these calls is a stop call on the
streaming server or on a `net/http` server; and `Shutdown` on it returns nil
without calling anything. -/
theorem C6_httpServer_never_populated (ext : Ext) (mcpServer : Server)
    (opts : HTTPServerOptions) (h : HTTPTransportServer) (ops : List Op) (ctx : Context)
    (hnew : (NewHTTPServer mcpServer opts).1 = .ok h) :
    h.httpServer = none ∧
    (applyOps ext h ops).1 = h ∧
    (applyOps ext h ops).1.httpServer = none ∧
    (∀ e ∈ (applyOps ext h ops).2, e.isStop = false) ∧
    ((applyOps ext h ops).1.Shutdown ext ctx).result = none ∧
    ((applyOps ext h ops).1.Shutdown ext ctx).events = [] := by
  have hnil := NewHTTPServer_httpServer mcpServer opts h hnew
  have hself := applyOps_self ext h ops
  refine ⟨hnil, hself, ?_, applyOps_no_stop ext h ops hnil, ?_, ?_⟩
  · rw [hself]; exact hnil
  · rw [hself]; simp [HTTPTransportServer.Shutdown, hnil]
  · rw [hself]; simp [HTTPTransportServer.Shutdown, hnil]

/-- The adapter over a `*Mark3labsImpl` after `Start`, a request and a
`Shutdown`: still no `net/http` server, and a further `Shutdown` is empty. -/
theorem C6_httpServer_never_populated_witness :
    (NewHTTPServer (.mark3labs ⟨⟨1⟩⟩) ⟨":8080", "/mcp", false⟩).1 =
      .ok ⟨some ⟨⟨1⟩, [.WithEndpointPath "/mcp"]⟩, none, ":8080"⟩ ∧
    (∀ e ∈ (applyOps extSample ⟨some ⟨⟨1⟩, [.WithEndpointPath "/mcp"]⟩, none, ":8080"⟩
        [.Start, .ServeHTTP ⟨7⟩, .Shutdown ⟨.Background, none⟩]).2, e.isStop = false) ∧
    ((applyOps extSample ⟨some ⟨⟨1⟩, [.WithEndpointPath "/mcp"]⟩, none, ":8080"⟩
        [.Start, .ServeHTTP ⟨7⟩, .Shutdown ⟨.Background, none⟩]).1.Shutdown extSample
        ⟨.Background, some .Canceled⟩).events = [] :=
  have w := C6_httpServer_never_populated extSample (.mark3labs ⟨⟨1⟩⟩) ⟨":8080", "/mcp", false⟩
    ⟨some ⟨⟨1⟩, [.WithEndpointPath "/mcp"]⟩, none, ":8080"⟩
    [.Start, .ServeHTTP ⟨7⟩, .Shutdown ⟨.Background, none⟩] ⟨.Background, some .Canceled⟩
    rfl
  ⟨rfl, w.2.2.2.1, w.2.2.2.2.2⟩

/-- C10: for a `*Mark3labsImpl` and options `(a, p, s)`, `NewHTTPServer`
succeeds; the streaming server is built over the implementation's protocol
server with the endpoint-path option carrying `p` exactly when `p` is not
empty, followed by the stateless option exactly when `s` is true; the adapter
stores `a`; `Start` calls the streaming server's `Start` with `a`, once, and
returns its result. -/
theorem C10_new_then_start (ext : Ext) (impl : Mark3labsImpl) (a p : String) (s : Bool) :
    ∃ h : HTTPTransportServer,
      NewHTTPServer (.mark3labs impl) ⟨a, p, s⟩ =
        (.ok h, [.NewStreamableHTTPServer impl.GetMCPServer
          ((if p ≠ "" then [.WithEndpointPath p] else []) ++
            (if s = true then [.WithStateLess true] else []))]) ∧
      h.mcpHTTPServer = some ⟨impl.GetMCPServer,
        (if p ≠ "" then [.WithEndpointPath p] else []) ++
          (if s = true then [.WithStateLess true] else [])⟩ ∧
      h.httpServer = none ∧
      h.address = a ∧
      (h.Start ext).result = ext.streamStart h.mcpHTTPServer a ∧
      (h.Start ext).events = [.StreamStart h.mcpHTTPServer a] ∧
      (h.Start ext).self = h := by
  refine ⟨_, NewHTTPServer_mark3labs impl ⟨a, p, s⟩, rfl, rfl, rfl, rfl, rfl, rfl⟩

/-! ## `runHTTPServer` -/

/-- The events of `NewHTTPServer` contain no call of `httpSrv.Shutdown` and no
start of the server. -/
theorem NewHTTPServer_events (mcpServer : Server) (opts : HTTPServerOptions) :
    shutdownCalls (NewHTTPServer mcpServer opts).2 = 0 ∧
    ∀ e ∈ (NewHTTPServer mcpServer opts).2, e.isStart = false := by
  cases mcpServer with
  | other typeName => simp [NewHTTPServer, shutdownCalls]
  | mark3labs impl =>
    rw [NewHTTPServer_mark3labs]
    simp [shutdownCalls, Event.isStart, Event.isShutdown]

/-- Counting the calls of `httpSrv.Shutdown` over a concatenation. -/
theorem shutdownCalls_append (xs ys : List Event) :
    shutdownCalls (xs ++ ys) = shutdownCalls xs + shutdownCalls ys := by
  simp [shutdownCalls]

/-- Counting the calls of `httpSrv.Shutdown`, event by event. -/
theorem shutdownCalls_cons (e : Event) (es : List Event) :
    shutdownCalls (e :: es) = (if e.isShutdown = true then 1 else 0) + shutdownCalls es := by
  by_cases h : e.isShutdown = true <;> simp [shutdownCalls, List.filter_cons, h, Nat.add_comm]

/-- No event, no call. -/
theorem shutdownCalls_nil : shutdownCalls [] = 0 := rfl

/-- After a successful logger creation, `httpCmd.Run` ends in `Fatalf`
exactly when `runHTTPServer` returns a non-nil error, and the exit status is 0
exactly when it returns nil. -/
theorem Run_end (ext : Ext) (v : Viper) (env : Environ) (sched : Schedule)
    (hlog : ext.logNew (v.GetString "log_file") = none) :
    ((∃ text, (httpCmd.Run ext v env sched).1 = .Fatalf text) ↔
      (runHTTPServer ext (httpClient v) (httpArgs v env).address (httpArgs v env).endpointPath
        (httpArgs v env).enabledToolsets (httpArgs v env).readOnly (httpArgs v env).stateless
        sched).1 ≠ none) ∧
    ((httpCmd.Run ext v env sched).1.exitCode = 0 ↔
      (runHTTPServer ext (httpClient v) (httpArgs v env).address (httpArgs v env).endpointPath
        (httpArgs v env).enabledToolsets (httpArgs v env).readOnly (httpArgs v env).stateless
        sched).1 = none) ∧
    ((httpCmd.Run ext v env sched).1.exitCode = 1 ↔
      (runHTTPServer ext (httpClient v) (httpArgs v env).address (httpArgs v env).endpointPath
        (httpArgs v env).enabledToolsets (httpArgs v env).readOnly (httpArgs v env).stateless
        sched).1 ≠ none) := by
  simp only [httpCmd.Run, hlog]
  cases hr : (runHTTPServer ext (httpClient v) (httpArgs v env).address
      (httpArgs v env).endpointPath (httpArgs v env).enabledToolsets (httpArgs v env).readOnly
      (httpArgs v env).stateless sched).1 with
  | none => simp [RunEnd.exitCode]
  | some err => simp [RunEnd.exitCode]

/-- C7: once `razorpay.NewServer` and `NewHTTPServer` have succeeded, the
result of `runHTTPServer` is decided by the case of the `select` that
proceeds. On the signal, `httpSrv.Shutdown` is called exactly once and its
result is returned; on the result of `Start`, `httpSrv.Shutdown` is not called
and that result is returned. `httpCmd.Run` calls `Fatalf` (exit status 1)
exactly when `runHTTPServer` returns a non-nil error, and otherwise returns
(exit status 0). -/
theorem C7_first_event_decides (ext : Ext) (client : Client) (address endpointPath : String)
    (enabledToolsets : List String) (readOnly stateless expired : Bool)
    (srv : RzpServer) (httpSrv : HTTPTransportServer)
    (hsrv : ext.NewServer client version enabledToolsets readOnly = .ok srv)
    (hhttp : (NewHTTPServer srv.GetMCPServer ⟨address, endpointPath, stateless⟩).1 = .ok httpSrv) :
    ((runHTTPServer ext client address endpointPath enabledToolsets readOnly stateless
        ⟨.signal, expired⟩).1 = (httpSrv.Shutdown ext (shutdownCtx expired)).result ∧
     shutdownCalls (runHTTPServer ext client address endpointPath enabledToolsets readOnly
        stateless ⟨.signal, expired⟩).2 = 1) ∧
    ((runHTTPServer ext client address endpointPath enabledToolsets readOnly stateless
        ⟨.startResult, expired⟩).1 = (httpSrv.Start ext).result ∧
     shutdownCalls (runHTTPServer ext client address endpointPath enabledToolsets readOnly
        stateless ⟨.startResult, expired⟩).2 = 0) ∧
    (∀ (v : Viper) (env : Environ) (sched : Schedule),
      ext.logNew (v.GetString "log_file") = none →
      ((∃ text, (httpCmd.Run ext v env sched).1 = .Fatalf text) ↔
        (runHTTPServer ext (httpClient v) (httpArgs v env).address
          (httpArgs v env).endpointPath (httpArgs v env).enabledToolsets
          (httpArgs v env).readOnly (httpArgs v env).stateless sched).1 ≠ none) ∧
      ((httpCmd.Run ext v env sched).1.exitCode = 0 ↔
        (runHTTPServer ext (httpClient v) (httpArgs v env).address
          (httpArgs v env).endpointPath (httpArgs v env).enabledToolsets
          (httpArgs v env).readOnly (httpArgs v env).stateless sched).1 = none) ∧
      ((httpCmd.Run ext v env sched).1.exitCode = 1 ↔
        (runHTTPServer ext (httpClient v) (httpArgs v env).address
          (httpArgs v env).endpointPath (httpArgs v env).enabledToolsets
          (httpArgs v env).readOnly (httpArgs v env).stateless sched).1 ≠ none)) := by
  have hnil := NewHTTPServer_httpServer _ _ _ hhttp
  have hev := (NewHTTPServer_events srv.GetMCPServer ⟨address, endpointPath, stateless⟩).1
  refine ⟨⟨?_, ?_⟩, ⟨?_, ?_⟩, ?_⟩
  · simp [runHTTPServer, hsrv, hhttp]
  · simp [runHTTPServer, hsrv, hhttp, shutdownCalls_append, shutdownCalls_cons,
      shutdownCalls_nil, Event.isShutdown, hev, HTTPTransportServer.Shutdown, hnil]
  · simp only [runHTTPServer, hsrv, hhttp]
    cases (httpSrv.Start ext).result <;> rfl
  · simp only [runHTTPServer, hsrv, hhttp]
    cases (httpSrv.Start ext).result <;>
      simp [shutdownCalls_append, shutdownCalls_cons, shutdownCalls_nil, Event.isShutdown, hev,
        HTTPTransportServer.Start]
  · intro v env sched hlog
    exact Run_end ext v env sched hlog

/-- The streaming server fails to bind: on the signal the result is nil after
one `Shutdown`; on the result of `Start` the bind error is returned and
`Shutdown` is not called. -/
theorem C7_first_event_decides_witness :
    extSample.NewServer clientSample version [] false = .ok ⟨.mark3labs ⟨⟨1⟩⟩⟩ ∧
    (runHTTPServer extSample clientSample ":bad" "/mcp" [] false false ⟨.signal, false⟩).1
      = none ∧
    shutdownCalls (runHTTPServer extSample clientSample ":bad" "/mcp" [] false false
      ⟨.signal, false⟩).2 = 1 ∧
    (runHTTPServer extSample clientSample ":bad" "/mcp" [] false false ⟨.startResult, false⟩).1
      = some (.msg "listen failed") ∧
    shutdownCalls (runHTTPServer extSample clientSample ":bad" "/mcp" [] false false
      ⟨.startResult, false⟩).2 = 0 :=
  have w := C7_first_event_decides extSample clientSample ":bad" "/mcp" [] false false false
    ⟨.mark3labs ⟨⟨1⟩⟩⟩ ⟨some ⟨⟨1⟩, [.WithEndpointPath "/mcp"]⟩, none, ":bad"⟩ rfl rfl
  ⟨rfl, w.1.1.trans rfl, w.1.2, w.2.1.1.trans rfl, w.2.1.2⟩

/-- C8: if `razorpay.NewServer` fails with `e`, `runHTTPServer` returns `e`
wrapped with the context `failed to create server: ` and neither
`NewHTTPServer` nor `Start` is called; if `NewHTTPServer` fails with `e`, it
returns `e` wrapped with the context `failed to create HTTP server: ` and
`Start` is never called. In both cases the error is non-nil and `httpCmd.Run`
ends the process with exit status 1. -/
theorem C8_construction_error_aborts (ext : Ext) (client : Client)
    (address endpointPath : String) (enabledToolsets : List String)
    (readOnly stateless : Bool) (sched : Schedule) :
    (∀ e, ext.NewServer client version enabledToolsets readOnly = .error e →
      (runHTTPServer ext client address endpointPath enabledToolsets readOnly stateless
        sched).1 = some (.wrap "failed to create server: " e) ∧
      (GoError.wrap "failed to create server: " e).Unwrap = some e ∧
      (GoError.wrap "failed to create server: " e).Error =
        "failed to create server: " ++ e.Error ∧
      ∀ ev ∈ (runHTTPServer ext client address endpointPath enabledToolsets readOnly stateless
        sched).2, ev.isNewHTTPServer = false ∧ ev.isStart = false) ∧
    (∀ srv e, ext.NewServer client version enabledToolsets readOnly = .ok srv →
      (NewHTTPServer srv.GetMCPServer ⟨address, endpointPath, stateless⟩).1 = .error e →
      (runHTTPServer ext client address endpointPath enabledToolsets readOnly stateless
        sched).1 = some (.wrap "failed to create HTTP server: " e) ∧
      (GoError.wrap "failed to create HTTP server: " e).Unwrap = some e ∧
      (GoError.wrap "failed to create HTTP server: " e).Error =
        "failed to create HTTP server: " ++ e.Error ∧
      ∀ ev ∈ (runHTTPServer ext client address endpointPath enabledToolsets readOnly stateless
        sched).2, ev.isStart = false) ∧
    (∀ (v : Viper) (env : Environ),
      ext.logNew (v.GetString "log_file") = none →
      (runHTTPServer ext (httpClient v) (httpArgs v env).address
          (httpArgs v env).endpointPath (httpArgs v env).enabledToolsets
          (httpArgs v env).readOnly (httpArgs v env).stateless sched).1 ≠ none →
      (httpCmd.Run ext v env sched).1.exitCode = 1) := by
  refine ⟨?_, ?_, ?_⟩
  · intro e he
    simp [runHTTPServer, he, Event.isNewHTTPServer, Event.isStart, GoError.Unwrap,
      GoError.Error]
  · intro srv e hsrv he
    have hev := (NewHTTPServer_events srv.GetMCPServer ⟨address, endpointPath, stateless⟩).2
    refine ⟨by simp [runHTTPServer, hsrv, he], rfl, rfl, ?_⟩
    intro ev hmem
    simp only [runHTTPServer, hsrv, he, List.mem_append, List.mem_singleton] at hmem
    rcases hmem with (rfl | rfl) | hmem
    · rfl
    · rfl
    · exact hev ev hmem
  · intro v env hlog hne
    exact (Run_end ext v env sched hlog).2.2.2 hne

/-- The toolset `bad` makes `razorpay.NewServer` fail, the toolset `foreign`
makes it return a server of a foreign type, on which `NewHTTPServer` fails. -/
theorem C8_construction_error_aborts_witness :
    (runHTTPServer extSample clientSample ":8080" "/mcp" ["bad"] false false
        ⟨.signal, false⟩) =
      (some (.wrap "failed to create server: " (.msg "unknown toolset")),
        [.NewServer clientSample version ["bad"] false]) ∧
    (runHTTPServer extSample clientSample ":8080" "/mcp" ["foreign"] false false
        ⟨.signal, false⟩).1 =
      some (.wrap "failed to create HTTP server: "
        (.msg "invalid server implementation: expected *Mark3labsImpl, got *other.Impl")) ∧
    (httpCmd.Run extSample
        { GetString := fun _ => "", GetStringSlice := fun _ => ["bad"], GetBool := fun _ => false }
        (envPort none) ⟨.signal, false⟩).1.exitCode = 1 :=
  ⟨by decide,
   ((C8_construction_error_aborts extSample clientSample ":8080" "/mcp" ["foreign"] false false
      ⟨.signal, false⟩).2.1 ⟨.other "*other.Impl"⟩
      (.msg "invalid server implementation: expected *Mark3labsImpl, got *other.Impl")
      rfl rfl).1,
   (C8_construction_error_aborts extSample clientSample ":8080" "/mcp" ["bad"] false false
      ⟨.signal, false⟩).2.2
      { GetString := fun _ => "", GetStringSlice := fun _ => ["bad"], GetBool := fun _ => false }
      (envPort none) rfl (by decide)⟩

/-- An adapter is only returned for a `*Mark3labsImpl`. -/
theorem NewHTTPServer_ok (mcpServer : Server) (opts : HTTPServerOptions)
    (h : HTTPTransportServer) (hnew : (NewHTTPServer mcpServer opts).1 = .ok h) :
    ∃ impl, mcpServer = .mark3labs impl := by
  cases mcpServer with
  | other typeName => simp [NewHTTPServer] at hnew
  | mark3labs impl => exact ⟨impl, rfl⟩

/-- C9: on the signal, `runHTTPServer` calls `httpSrv.Shutdown` with a context
derived from `context.Background()` by `WithTimeout` with the duration 30 (in
the unit of `time.Duration`), not from the signal context; this holds for
every such call it makes; and whether or not that deadline has already passed,
`runHTTPServer` returns, with a nil error. -/
theorem C9_shutdown_timeout_30 (ext : Ext) (client : Client) (address endpointPath : String)
    (enabledToolsets : List String) (readOnly stateless expired : Bool)
    (srv : RzpServer) (httpSrv : HTTPTransportServer)
    (hsrv : ext.NewServer client version enabledToolsets readOnly = .ok srv)
    (hhttp : (NewHTTPServer srv.GetMCPServer ⟨address, endpointPath, stateless⟩).1 = .ok httpSrv) :
    Event.Shutdown (shutdownCtx expired) ∈
      (runHTTPServer ext client address endpointPath enabledToolsets readOnly stateless
        ⟨.signal, expired⟩).2 ∧
    (∀ ctx, Event.Shutdown ctx ∈
        (runHTTPServer ext client address endpointPath enabledToolsets readOnly stateless
          ⟨.signal, expired⟩).2 →
      ctx.origin = .WithTimeout .Background 30 ∧ ctx.origin ≠ signalCtxOrigin ∧
      ctx.err = if expired = true then some .DeadlineExceeded else none) ∧
    (runHTTPServer ext client address endpointPath enabledToolsets readOnly stateless
      ⟨.signal, expired⟩).1 = none := by
  have hnil := NewHTTPServer_httpServer _ _ _ hhttp
  obtain ⟨impl, himpl⟩ := NewHTTPServer_ok _ _ _ hhttp
  refine ⟨?_, ?_, ?_⟩
  · simp [runHTTPServer, hsrv, hhttp]
  · intro ctx hmem
    simp only [runHTTPServer, hsrv, hhttp, himpl, NewHTTPServer_mark3labs,
      HTTPTransportServer.Shutdown, hnil] at hmem
    simp at hmem
    subst hmem
    simp [shutdownCtx, signalCtxOrigin]
  · simp [runHTTPServer, hsrv, hhttp, HTTPTransportServer.Shutdown, hnil]

/-- A run in which the deadline has already passed when `Shutdown` is called:
the context is the 30-unit one and `runHTTPServer` returns nil. -/
theorem C9_shutdown_timeout_30_witness :
    Event.Shutdown ⟨.WithTimeout .Background 30, some .DeadlineExceeded⟩ ∈
      (runHTTPServer extSample clientSample ":8080" "/mcp" [] false true ⟨.signal, true⟩).2 ∧
    (runHTTPServer extSample clientSample ":8080" "/mcp" [] false true ⟨.signal, true⟩).1
      = none :=
  have w := C9_shutdown_timeout_30 extSample clientSample ":8080" "/mcp" [] false true true
    ⟨.mark3labs ⟨⟨1⟩⟩⟩
    ⟨some ⟨⟨1⟩, [.WithEndpointPath "/mcp", .WithStateLess true]⟩, none, ":8080"⟩ rfl rfl
  ⟨w.1, w.2.2⟩

/-! ## Resolution of a configuration key -/

/-- The lookup of a key with a bound flag, written as the flag / environment /
file / default order over the upper-cased key followed by the bound names. -/
theorem find_bound (src : Sources) (key : String) (f : BoundFlag) (envs : List String)
    (hf : initRegistry.pflags.lookup key = some f)
    (he : (initRegistry.env.lookup key).getD [] = envs) :
    find initRegistry src key =
      some (specResolve src ⟨key, f.name, ToUpper key :: envs, f.defValue⟩) := by
  have hauto : initRegistry.automaticEnvApplied = true := rfl
  simp only [find, specResolve, firstEnv, hf, he, hauto, Option.bind, if_true, Option.map]
  cases src.flags f.name with
  | some v => rfl
  | none =>
    cases getEnv src.env (ToUpper key) with
    | some val => rfl
    | none =>
      cases firstEnv src.env envs with
      | some val => rfl
      | none =>
        cases src.file key with
        | some v => rfl
        | none => rfl

/-- Looking a name up twice in a row is looking it up once. -/
theorem firstEnv_twice (env : Environ) (name : String) :
    firstEnv env [name, name] = firstEnv env [name] := by
  simp only [firstEnv]
  cases getEnv env name <;> rfl

/-- C3 (as stated, refuted): with no flag, no bound variable set and the file
giving `key`, the environment variable `KEY` still wins over the file. -/
theorem C3_counterexample_automatic_env :
    ¬ ∀ (src : Sources) (row : SpecRow), row ∈ specRows →
        find initRegistry src row.key = some (specResolve src row) := by
  intro h
  have h1 := h srcKeyEnv ⟨"key", "key", ["RAZORPAY_KEY_ID", "RAZORPAY_API_KEY"], .str ""⟩
    (by decide)
  revert h1
  decide

/-- C3 (amended): for each of the six keys the resolved value is the flag
value when the flag was given; otherwise the first non-empty value among the
environment variable named by the upper-cased key and then the bound
variables in their order; otherwise the config-file value; otherwise the
flag's default. For `address`, `toolsets`, `read_only` and `endpoint_path`
the upper-cased key is the bound variable, so the order is the stated one. -/
theorem C3_resolution_order (src : Sources) (row : SpecRow) (hrow : row ∈ specRows) :
    find initRegistry src row.key = some (specResolve src row.withAutomaticEnv) ∧
    (row.key ≠ "key" → row.key ≠ "secret" →
      find initRegistry src row.key = some (specResolve src row)) := by
  simp only [specRows, List.mem_cons, List.mem_singleton, List.not_mem_nil, or_false] at hrow
  rcases hrow with rfl | rfl | rfl | rfl | rfl | rfl
  · exact ⟨find_bound src "key" _ _ rfl rfl, fun h => absurd rfl h⟩
  · exact ⟨find_bound src "secret" _ _ rfl rfl, fun _ h => absurd rfl h⟩
  · refine ⟨find_bound src "address" _ _ rfl rfl, fun _ _ => ?_⟩
    rw [find_bound src "address" _ ["ADDRESS"] rfl rfl]
    simp only [specResolve, show ToUpper "address" = "ADDRESS" from by decide, firstEnv_twice]
  · refine ⟨find_bound src "toolsets" _ _ rfl rfl, fun _ _ => ?_⟩
    rw [find_bound src "toolsets" _ ["TOOLSETS"] rfl rfl]
    simp only [specResolve, show ToUpper "toolsets" = "TOOLSETS" from by decide, firstEnv_twice]
  · refine ⟨find_bound src "read_only" _ _ rfl rfl, fun _ _ => ?_⟩
    rw [find_bound src "read_only" _ ["READ_ONLY"] rfl rfl]
    simp only [specResolve, show ToUpper "read_only" = "READ_ONLY" from by decide,
      firstEnv_twice]
  · refine ⟨find_bound src "endpoint_path" _ _ rfl rfl, fun _ _ => ?_⟩
    rw [find_bound src "endpoint_path" _ ["ENDPOINT_PATH"] rfl rfl]
    simp only [specResolve, show ToUpper "endpoint_path" = "ENDPOINT_PATH" from by decide,
      firstEnv_twice]

/-- The key `key` with only `KEY` in the environment and `key` in the file:
the value of `KEY` is resolved. -/
theorem C3_resolution_order_witness :
    (⟨"key", "key", ["RAZORPAY_KEY_ID", "RAZORPAY_API_KEY"], .str ""⟩ : SpecRow) ∈ specRows ∧
    find initRegistry srcKeyEnv "key" = some (.str "from-env") :=
  ⟨by decide,
   (C3_resolution_order srcKeyEnv ⟨"key", "key", ["RAZORPAY_KEY_ID", "RAZORPAY_API_KEY"], .str ""⟩
      (by decide)).1.trans (by decide)⟩

end Razorpay
